import Mathlib

/-!
Shallow embedding of the session and conversational-context management
subsystem of `src/backend/server.py` (Bujji AI Vision Assistant backend).

Python dictionaries are modelled as association lists with first-occurrence
lookup; dictionary entry assignment replaces the first entry with the key in
place (as a Python `dict` does for its unique entry) and appends otherwise.
External collaborators (the vision and Q&A chat calls), the clock, and the
transport are oracles supplied through an environment record, since the code
treats them as opaque awaited calls.
-/

namespace Bujji

/-- First-occurrence lookup in an association list, modelling `d[k]` /
`d.get(k)` on a Python dict (whose keys are unique). -/
def dictGet? {K V : Type} [DecidableEq K] : List (K × V) → K → Option V
  | [], _ => none
  | (k', v) :: rest, k => if k = k' then some v else dictGet? rest k

/-- Membership test, modelling Python `k in d`. -/
def dictContains {K V : Type} [DecidableEq K] (m : List (K × V)) (k : K) : Bool :=
  (dictGet? m k).isSome

/-- Assignment `d[k] = v` on a Python dict: replace the entry for `k` in place
if present, append a new entry otherwise. -/
def dictSet {K V : Type} [DecidableEq K] : List (K × V) → K → V → List (K × V)
  | [], k, v => [(k, v)]
  | (k', v') :: rest, k, v =>
      if k = k' then (k, v) :: rest else (k', v') :: dictSet rest k v

/-- Deletion `del d[k]` on a Python dict (removes the entry for `k`; on a dict
with unique keys removing every occurrence coincides with removing the one). -/
def dictDel {K V : Type} [DecidableEq K] : List (K × V) → K → List (K × V)
  | [], _ => []
  | (k', v) :: rest, k =>
      if k = k' then dictDel rest k else (k', v) :: dictDel rest k

/-- In-place mutation of the entry for `k` (as in
`d[k]["field"] = ...` or `d[k]["field"].append(...)` in the source). -/
def dictModify {K V : Type} [DecidableEq K] : List (K × V) → K → (V → V) → List (K × V)
  | [], _, _ => []
  | (k', v) :: rest, k, f =>
      if k = k' then (k', f v) :: rest else (k', v) :: dictModify rest k f

/-- Number of entries stored under key `k`. -/
def dictCountKey {K V : Type} [DecidableEq K] (m : List (K × V)) (k : K) : Nat :=
  (m.filter (fun p => decide (p.1 = k))).length

/-- One entry of a client's `conversation_history`
(`server.py` lines 259-264; the timestamp is modelled as a natural number). -/
structure HistoryEntry where
  question : String
  answer : String
  scene_context : String
  timestamp : Nat
deriving DecidableEq, Repr

/-- A per-client session record as created by `ConnectionManager.connect`
(`server.py` lines 53-56). -/
structure Session where
  last_scene_description : String
  conversation_history : List HistoryEntry
deriving DecidableEq, Repr

/-- The `client_sessions` dictionary of the `ConnectionManager`. -/
abbrev SessionMap := List (String × Session)

/-- State of the `ConnectionManager` (`server.py` lines 45-48): a dictionary
of live websockets (modelled by numeric channel identifiers) and a dictionary
of per-client sessions. -/
structure ConnectionManager where
  active_connections : List (String × Nat)
  client_sessions : SessionMap
deriving DecidableEq, Repr

/-- `ConnectionManager.connect` (`server.py` lines 50-57): accept the
websocket, store it under `client_id` in `active_connections`, and reset
`client_sessions[client_id]` to a fresh session with empty description and
empty history. The source never closes a previously registered websocket. -/
def ConnectionManager.connect (m : ConnectionManager) (websocket : Nat)
    (client_id : String) : ConnectionManager :=
  { active_connections := dictSet m.active_connections client_id websocket
    client_sessions := dictSet m.client_sessions client_id ⟨"", []⟩ }

/-- `ConnectionManager.disconnect` (`server.py` lines 59-64): delete the
client's entry from `active_connections` and from `client_sessions`, each
guarded by a membership test, so the call is total. -/
def ConnectionManager.disconnect (m : ConnectionManager)
    (client_id : String) : ConnectionManager :=
  { active_connections := dictDel m.active_connections client_id
    client_sessions := dictDel m.client_sessions client_id }

/-- `ConnectionManager.send_message` (`server.py` lines 66-72): if the client
has an active connection, attempt `send_text`; a raised exception is caught,
logged, and answered by `self.disconnect(client_id)`. If the client has no
connection the call does nothing. The function is total (no error escapes to
the caller). `sendOk ws` is the oracle for whether `send_text` on channel
`ws` succeeds. -/
def ConnectionManager.send_message (m : ConnectionManager) (sendOk : Nat → Bool)
    (client_id : String) : ConnectionManager :=
  match dictGet? m.active_connections client_id with
  | none => m
  | some ws => if sendOk ws then m else m.disconnect client_id

/-- World state around the manager: the manager plus the set of websocket
channels on which `close()` has ever been called. The source calls `close()`
on no websocket anywhere, so every operation leaves `closed_channels`
unchanged; the field exists so that claims about channels being closed are
expressible. -/
structure World where
  manager : ConnectionManager
  closed_channels : List Nat
deriving DecidableEq, Repr

/-- Registration of a realtime connection as performed by the websocket
endpoint (`server.py` line 281): `manager.connect` runs and no channel is
closed. -/
def World.register (w : World) (websocket : Nat) (client_id : String) : World :=
  { manager := w.manager.connect websocket client_id
    closed_channels := w.closed_channels }

/-- Value of a single base64 alphabet character, as in the `table_a2b_base64`
lookup used by Python's `binascii.a2b_base64`. -/
def b64CharVal (c : Char) : Option Nat :=
  if 'A' ≤ c ∧ c ≤ 'Z' then some (c.toNat - 65)
  else if 'a' ≤ c ∧ c ≤ 'z' then some (c.toNat - 97 + 26)
  else if '0' ≤ c ∧ c ≤ '9' then some (c.toNat - 48 + 52)
  else if c = '+' then some 62
  else if c = '/' then some 63
  else none

/-- The quad state machine of CPython's `binascii.a2b_base64` in non-strict
mode (which `base64.b64decode(..., validate=False)` calls, `server.py`
line 146): characters outside the alphabet are skipped; a pad character
terminates decoding successfully once the current quad position is at least 2
and position plus pads reaches 4; at end of input a quad position of 1, 2 or 3
is an error (`Invalid padding`). `quad_pos` is the position within the current
group of four symbols, `leftchar` the bits carried between symbols, `pads` the
run of pad characters seen, `out` the decoded bytes in reverse. -/
def a2b_base64_loop : List Char → Nat → Nat → Nat → List Nat → Option (List Nat)
  | [], quad_pos, _, _, out => if quad_pos = 0 then some out.reverse else none
  | c :: rest, quad_pos, leftchar, pads, out =>
      if c = '=' then
        if 2 ≤ quad_pos ∧ 4 ≤ quad_pos + (pads + 1) then some out.reverse
        else a2b_base64_loop rest quad_pos leftchar (pads + 1) out
      else
        match b64CharVal c with
        | none => a2b_base64_loop rest quad_pos leftchar pads out
        | some v =>
          match quad_pos with
          | 0 => a2b_base64_loop rest 1 v 0 out
          | 1 => a2b_base64_loop rest 2 (v % 16) 0 ((leftchar * 4 + v / 16) :: out)
          | 2 => a2b_base64_loop rest 3 (v % 4) 0 ((leftchar * 16 + v / 4) :: out)
          | _ => a2b_base64_loop rest 0 0 0 ((leftchar * 64 + v) :: out)

/-- Python `base64.b64decode(s)` on a `str` argument: the string must be pure
ASCII (`s.encode('ascii')` raises otherwise), then `binascii.a2b_base64`
decodes it in non-strict mode. `none` models the raised `binascii.Error` /
`ValueError`, which `analyze_scene` converts to HTTP 400. -/
def b64decode (s : String) : Option (List Nat) :=
  if s.toList.all (fun c => c.toNat < 128) then a2b_base64_loop s.toList 0 0 0 []
  else none

/-- Python `s.split(',')` on the character list of `s`: the maximal
comma-free segments, in order (an empty segment between adjacent commas or at
either end is kept, as Python does). -/
def splitCommas : List Char → List Char → List (List Char)
  | [], acc => [acc.reverse]
  | c :: rest, acc =>
      if c = ',' then acc.reverse :: splitCommas rest []
      else splitCommas rest (c :: acc)

/-- The payload selection of `server.py` line 146:
`request.image_data.split(',')[1] if ',' in request.image_data else
request.image_data` (the segment between the first and second comma, used to
drop a `data:image/...;base64,` prefix). -/
def payloadOf (image_data : String) : String :=
  if image_data.data.any (fun c => c = ',') then
    ⟨(splitCommas image_data.data []).getD 1 []⟩
  else image_data

deriving instance DecidableEq for Except

/-- Python `str.strip()` as used on the collaborator responses
(`server.py` lines 168 and 255): remove leading and trailing whitespace. -/
def pystrip (s : String) : String :=
  ⟨((s.data.dropWhile Char.isWhitespace).reverse.dropWhile Char.isWhitespace).reverse⟩

/-- The error taxonomy of the request handlers, with the HTTP status codes the
source attaches to each (`server.py` lines 142, 148, 184, 232, 240, 276). -/
inductive ApiError where
  | InvalidInput
  | NoContext
  | BackendUnavailable
  | UpstreamError
deriving DecidableEq, Repr

/-- HTTP status code raised for each error in the source. -/
def ApiError.status : ApiError → Nat
  | .InvalidInput => 400
  | .NoContext => 400
  | .BackendUnavailable => 503
  | .UpstreamError => 500

/-- Request body of `POST /api/analyze-scene` (`server.py` lines 77-79). -/
structure SceneAnalysisRequest where
  image_data : String
  client_id : String
deriving DecidableEq, Repr

/-- The float literal `0.85` of `server.py` line 177, modelled as a rational
(no floating-point arithmetic is ever performed on it). -/
def placeholder_confidence : Rat := 85 / 100

/-- Response body of `POST /api/analyze-scene` (`server.py` lines 81-84). -/
structure SceneAnalysisResponse where
  description : String
  timestamp : Nat
  confidence : Rat
deriving DecidableEq, Repr

/-- Request body of `POST /api/ask-question` (`server.py` lines 86-88). -/
structure QuestionRequest where
  question : String
  client_id : String
deriving DecidableEq, Repr

/-- Response body of `POST /api/ask-question` (`server.py` lines 90-93). -/
structure QuestionResponse where
  answer : String
  scene_context : String
  timestamp : Nat
deriving DecidableEq, Repr

/-- Oracles for a single request: whether the global `vision_chat` has been
initialized by the startup hook, the text the vision collaborator's awaited
`send_message` returns (`none` models a raised exception or timeout), the
same for the Q&A collaborator, and the clock. -/
structure Env where
  vision_chat_initialized : Bool
  visionResponse : Option String
  qaResponse : Option String
  now : Nat
deriving DecidableEq, Repr

/-- The context-store write of `server.py` lines 170-172: the assignment
`manager.client_sessions[request.client_id]["last_scene_description"] =
description`, guarded by `if request.client_id in manager.client_sessions`.
A client with no session entry gets no entry created; the write is skipped. -/
def commitScene (sessions : SessionMap) (client_id : String)
    (description : String) : SessionMap :=
  if dictContains sessions client_id then
    dictModify sessions client_id
      (fun s => { s with last_scene_description := description })
  else sessions

/-- Outcome of one `analyze_scene` request: the HTTP result, the
`client_sessions` dictionary afterwards, and whether the vision collaborator
was invoked. -/
structure AnalyzeOutcome where
  result : Except ApiError SceneAnalysisResponse
  sessions : SessionMap
  vision_called : Bool
deriving DecidableEq, Repr

/-- `analyze_scene` (`server.py` lines 137-184), in the source's order:
503 if `vision_chat` is uninitialized; base64-decode the payload, 400 on
failure; invoke the vision collaborator (500 if it raises); strip the
response; run the guarded context-store write; return the description with
timestamp and the placeholder confidence `0.85`. No image-format decoding is
performed anywhere in the handler. -/
def analyze_scene (env : Env) (sessions : SessionMap)
    (request : SceneAnalysisRequest) : AnalyzeOutcome :=
  if env.vision_chat_initialized then
    match b64decode (payloadOf request.image_data) with
    | none => ⟨.error .InvalidInput, sessions, false⟩
    | some _ =>
      match env.visionResponse with
      | none => ⟨.error .UpstreamError, sessions, true⟩
      | some response =>
        let description := pystrip response
        ⟨.ok ⟨description, env.now, placeholder_confidence⟩,
         commitScene sessions request.client_id description, true⟩
  else ⟨.error .BackendUnavailable, sessions, false⟩

/-- The context read of `server.py` lines 235-237: `scene_context = ""`,
overwritten with the stored `last_scene_description` when the client has a
session entry. -/
def sceneContextOf (sessions : SessionMap) (client_id : String) : String :=
  match dictGet? sessions client_id with
  | some s => s.last_scene_description
  | none => ""

/-- The history append of `server.py` lines 258-264: guarded by
`if request.client_id in manager.client_sessions`, the new entry is appended
to the client's `conversation_history`. -/
def appendHistory (sessions : SessionMap) (client_id : String)
    (entry : HistoryEntry) : SessionMap :=
  if dictContains sessions client_id then
    dictModify sessions client_id
      (fun s => { s with conversation_history := s.conversation_history ++ [entry] })
  else sessions

/-- Outcome of one `ask_question` request: the HTTP result, the
`client_sessions` dictionary afterwards, and whether the Q&A collaborator was
invoked. -/
structure AskOutcome where
  result : Except ApiError QuestionResponse
  sessions : SessionMap
  qa_called : Bool
deriving DecidableEq, Repr

/-- `ask_question` (`server.py` lines 227-276), in the source's order: 503 if
`vision_chat` is uninitialized; read the scene context (empty string when the
client has no session entry); 400 (`No recent scene analysis available`) if
the context is empty; invoke the Q&A collaborator (500 if it raises); strip
the answer; append the history entry (guarded); return answer, scene context
and timestamp. -/
def ask_question (env : Env) (sessions : SessionMap)
    (request : QuestionRequest) : AskOutcome :=
  if env.vision_chat_initialized then
    let scene_context := sceneContextOf sessions request.client_id
    if scene_context = "" then ⟨.error .NoContext, sessions, false⟩
    else
      match env.qaResponse with
      | none => ⟨.error .UpstreamError, sessions, true⟩
      | some response =>
        let answer := pystrip response
        ⟨.ok ⟨answer, scene_context, env.now⟩,
         appendHistory sessions request.client_id
           ⟨request.question, answer, scene_context, env.now⟩, true⟩
  else ⟨.error .BackendUnavailable, sessions, false⟩

/-- Spec-facing read of the stored description (`getSceneDescription` in the
spec): the client's `last_scene_description`, `none` when the client has no
session entry. -/
def getSceneDescription (sessions : SessionMap) (client_id : String) : Option String :=
  (dictGet? sessions client_id).map Session.last_scene_description

/-- Modelled from the spec: the `decodes as a supported image encoding`
predicate of §4.3. The handler in the source performs no such check (it only
base64-decodes), so the check is reconstructed from the spec's words: the
decoded bytes must begin with the magic signature of a common supported
format (JPEG, PNG, GIF, BMP, or RIFF/WebP). -/
def hasImageMagic (bs : List Nat) : Bool :=
  [255, 216, 255].isPrefixOf bs || [137, 80, 78, 71].isPrefixOf bs ||
  [71, 73, 70, 56].isPrefixOf bs || [66, 77].isPrefixOf bs ||
  [82, 73, 70, 70].isPrefixOf bs

/-- Modelled from the spec: an `image_data` payload `decodes as a supported
image encoding` when its base64 decoding succeeds and the decoded bytes carry
a supported image magic signature. -/
def decodesAsSupportedImage (image_data : String) : Bool :=
  match b64decode (payloadOf image_data) with
  | none => false
  | some bs => hasImageMagic bs

/-- A scene-analysis call in flight for the concurrency model: the client it
belongs to and the text its collaborator call will eventually return. -/
structure InFlight where
  client_id : String
  response : String
deriving DecidableEq, Repr

/-- Concurrent execution of a set of in-flight `analyze_scene` calls, given
the order in which their collaborator awaits resolve. Each handler's only
effect on `client_sessions` is the atomic post-await `commitScene` (the
asyncio event loop runs the code between awaits without preemption), and the
handlers hold no lock, so the source admits every resumption order of the
pending awaits: an execution is any permutation of the submitted calls, and
its effect folds the commits in completion order. -/
def runCompletions (sessions : SessionMap) : List InFlight → SessionMap
  | [] => sessions
  | t :: rest => runCompletions (commitScene sessions t.client_id (pystrip t.response)) rest

/-- The last call belonging to `cid` in a list of in-flight calls, and the
response text it carries (`none` when no call in the list belongs to `cid`).
Applied to a completion order it picks the last-completed call; applied to
the submission list it picks the most recently submitted call. -/
def lastCompletionFor : List InFlight → String → Option String
  | [], _ => none
  | t :: rest, cid =>
      match lastCompletionFor rest cid with
      | some r => some r
      | none => if t.client_id = cid then some t.response else none

theorem dictGet?_dictSet_self {K V : Type} [DecidableEq K] (m : List (K × V))
    (k : K) (v : V) : dictGet? (dictSet m k v) k = some v := by
  induction m with
  | nil => simp [dictSet, dictGet?]
  | cons p rest ih =>
    obtain ⟨k', v'⟩ := p
    by_cases h : k = k' <;> simp [dictSet, dictGet?, h, ih]

theorem dictGet?_dictSet_other {K V : Type} [DecidableEq K] (m : List (K × V))
    (k k₂ : K) (v : V) (h : k₂ ≠ k) :
    dictGet? (dictSet m k v) k₂ = dictGet? m k₂ := by
  induction m with
  | nil => simp [dictSet, dictGet?, h]
  | cons p rest ih =>
    obtain ⟨k', v'⟩ := p
    by_cases h1 : k = k'
    · subst h1
      simp [dictSet, dictGet?, h]
    · by_cases h2 : k₂ = k' <;> simp [dictSet, dictGet?, h1, h2, ih]

theorem dictGet?_dictModify_self {K V : Type} [DecidableEq K] (m : List (K × V))
    (k : K) (f : V → V) : dictGet? (dictModify m k f) k = (dictGet? m k).map f := by
  induction m with
  | nil => rfl
  | cons p rest ih =>
    obtain ⟨k', v'⟩ := p
    by_cases h : k = k' <;> simp [dictModify, dictGet?, h, ih]

theorem dictGet?_dictModify_other {K V : Type} [DecidableEq K] (m : List (K × V))
    (k k₂ : K) (f : V → V) (h : k₂ ≠ k) :
    dictGet? (dictModify m k f) k₂ = dictGet? m k₂ := by
  induction m with
  | nil => rfl
  | cons p rest ih =>
    obtain ⟨k', v'⟩ := p
    by_cases h1 : k = k'
    · subst h1
      simp [dictModify, dictGet?, h]
    · by_cases h2 : k₂ = k' <;> simp [dictModify, dictGet?, h1, h2, ih]

theorem dictGet?_dictDel_self {K V : Type} [DecidableEq K] (m : List (K × V))
    (k : K) : dictGet? (dictDel m k) k = none := by
  induction m with
  | nil => rfl
  | cons p rest ih =>
    obtain ⟨k', v'⟩ := p
    by_cases h : k = k'
    · subst h
      simpa [dictDel] using ih
    · simp [dictDel, dictGet?, h, ih]

theorem dictDel_eq_of_none {K V : Type} [DecidableEq K] (m : List (K × V))
    (k : K) (h : dictGet? m k = none) : dictDel m k = m := by
  induction m with
  | nil => rfl
  | cons p rest ih =>
    obtain ⟨k', v'⟩ := p
    by_cases h1 : k = k'
    · subst h1
      simp [dictGet?] at h
    · simp only [dictGet?, if_neg h1] at h
      simp [dictDel, h1, ih h]

theorem dictDel_dictDel {K V : Type} [DecidableEq K] (m : List (K × V)) (k : K) :
    dictDel (dictDel m k) k = dictDel m k :=
  dictDel_eq_of_none _ _ (dictGet?_dictDel_self m k)

theorem dictCountKey_dictSet_self {K V : Type} [DecidableEq K] (m : List (K × V))
    (k : K) (v : V) : dictCountKey (dictSet m k v) k = max (dictCountKey m k) 1 := by
  induction m with
  | nil => simp [dictSet, dictCountKey]
  | cons p rest ih =>
    obtain ⟨k', v'⟩ := p
    by_cases h : k = k'
    · subst h
      simp [dictSet, dictCountKey, List.filter]
    · have h' : decide (k' = k) = false := decide_eq_false (fun hh => h hh.symm)
      simp only [dictSet, if_neg h, dictCountKey, List.filter, h'] at *
      exact ih

theorem dictContains_dictModify {K V : Type} [DecidableEq K] (m : List (K × V))
    (k k₂ : K) (f : V → V) :
    dictContains (dictModify m k f) k₂ = dictContains m k₂ := by
  by_cases h : k₂ = k
  · subst h
    simp [dictContains, dictGet?_dictModify_self]
  · simp [dictContains, dictGet?_dictModify_other m k k₂ f h]

theorem dictContains_commitScene (s : SessionMap) (cid cid₂ d : String) :
    dictContains (commitScene s cid d) cid₂ = dictContains s cid₂ := by
  unfold commitScene
  split
  · exact dictContains_dictModify s cid cid₂ _
  · rfl

theorem getSceneDescription_commitScene_self (s : SessionMap) (cid d : String)
    (h : dictContains s cid = true) :
    getSceneDescription (commitScene s cid d) cid = some d := by
  unfold commitScene getSceneDescription
  rw [if_pos h, dictGet?_dictModify_self]
  unfold dictContains at h
  cases hs : dictGet? s cid with
  | none => rw [hs] at h; simp at h
  | some sess => simp

theorem getSceneDescription_commitScene_other (s : SessionMap) (cid cid₂ d : String)
    (h : cid₂ ≠ cid) :
    getSceneDescription (commitScene s cid d) cid₂ = getSceneDescription s cid₂ := by
  unfold commitScene getSceneDescription
  split
  · rw [dictGet?_dictModify_other s cid cid₂ _ h]
  · rfl

theorem dictGet?_eq_none_of_contains_false {K V : Type} [DecidableEq K]
    (m : List (K × V)) (k : K) (h : dictContains m k = false) :
    dictGet? m k = none := by
  cases hx : dictGet? m k with
  | none => rfl
  | some v => rw [dictContains, hx] at h; simp at h

theorem runCompletions_getScene (order : List InFlight) :
    ∀ (sessions : SessionMap) (cid : String), dictContains sessions cid = true →
      getSceneDescription (runCompletions sessions order) cid =
        match lastCompletionFor order cid with
        | some r => some (pystrip r)
        | none => getSceneDescription sessions cid := by
  induction order with
  | nil => intro sessions cid _; rfl
  | cons t rest ih =>
    intro sessions cid hc
    have hc' : dictContains (commitScene sessions t.client_id (pystrip t.response)) cid = true := by
      rw [dictContains_commitScene]; exact hc
    have hrec := ih (commitScene sessions t.client_id (pystrip t.response)) cid hc'
    show getSceneDescription (runCompletions (commitScene sessions t.client_id (pystrip t.response)) rest) cid =
      match lastCompletionFor (t :: rest) cid with
      | some r => some (pystrip r)
      | none => getSceneDescription sessions cid
    rw [hrec]
    cases hrest : lastCompletionFor rest cid with
    | some r => simp [lastCompletionFor, hrest]
    | none =>
      by_cases ht : t.client_id = cid
      · subst ht
        simp [lastCompletionFor, hrest,
          getSceneDescription_commitScene_self sessions t.client_id (pystrip t.response) hc]
      · simp [lastCompletionFor, hrest, ht,
          getSceneDescription_commitScene_other sessions t.client_id cid (pystrip t.response)
            (fun hh => ht hh.symm)]

/-- Claim C1, amended: writes to the context store are atomic and
last-completed-wins. For any execution of a set of submitted `analyze_scene`
calls (any resumption order of their collaborator awaits), the final stored
description for a client is exactly the stripped response of the last call to
complete for that client — always a value some call wrote, never a mix — but
the handler holds no per-client lock, so the last-completed call need not be
the most recently submitted one. -/
theorem c1_last_completed_wins (sessions : SessionMap) (subs order : List InFlight)
    (cid r : String) (_hperm : order.Perm subs)
    (hc : dictContains sessions cid = true)
    (hlast : lastCompletionFor order cid = some r) :
    getSceneDescription (runCompletions sessions order) cid = some (pystrip r) := by
  rw [runCompletions_getScene order sessions cid hc, hlast]

/-- Witness for `c1_last_completed_wins`: client `A` submits `d1` then `d2`,
the awaits resolve in the opposite order, and the stored description is the
last-completed `d1`. -/
theorem c1_last_completed_wins_witness :
    getSceneDescription
      (runCompletions [("A", ⟨"", []⟩)] [⟨"A", "d2"⟩, ⟨"A", "d1"⟩]) "A" =
      some (pystrip "d1") :=
  c1_last_completed_wins [("A", ⟨"", []⟩)] [⟨"A", "d1"⟩, ⟨"A", "d2"⟩]
    [⟨"A", "d2"⟩, ⟨"A", "d1"⟩] "A" "d1" (by decide) (by decide) (by decide)

/-- Claim C1, counterexample: with client `A` submitting `analyze_scene`
calls carrying `d1` then `d2` back-to-back, the execution in which the second
call's collaborator await resolves first is admitted by the source (no
per-client serialization exists), and it leaves the description at `d1`, the
first-submitted call's value — not the most recently submitted `d2`. -/
theorem c1_counterexample :
    ¬ (∀ (sessions : SessionMap) (subs order : List InFlight) (cid r : String),
        order.Perm subs → dictContains sessions cid = true →
        lastCompletionFor subs cid = some r →
        getSceneDescription (runCompletions sessions order) cid = some (pystrip r)) := by
  intro h
  have := h [("A", ⟨"", []⟩)] [⟨"A", "d1"⟩, ⟨"A", "d2"⟩] [⟨"A", "d2"⟩, ⟨"A", "d1"⟩]
    "A" "d2" (by decide) (by decide) (by decide)
  exact absurd this (by decide)

/-- Claim C2 (code bug, evaluation at the failing input): a previously-unseen
client (no session entry, because the client never opened a realtime
connection) runs a fully successful `analyze_scene` — the collaborator
returns `a red chair` and the handler returns HTTP 200 with that description —
yet the guarded write of `server.py` lines 171-172 is skipped, no session
entry is created, and `getSceneDescription` still reports nothing. The same
guard also drops the commit when a realtime disconnect lands while the
request is in flight: `disconnect` deletes the session entry, after which
`commitScene` is a no-op. -/
theorem c2_commit_skipped :
    analyze_scene ⟨true, some "a red chair", none, 7⟩ [] ⟨"aGVsbG8=", "client1"⟩ =
      ⟨.ok ⟨"a red chair", 7, placeholder_confidence⟩, [], true⟩ ∧
    getSceneDescription ([] : SessionMap) "client1" = none ∧
    (ConnectionManager.disconnect
      ⟨[("client1", 1)], [("client1", ⟨"", []⟩)]⟩ "client1").client_sessions = [] ∧
    commitScene [] "client1" "a red chair" = [] :=
  ⟨rfl, rfl, by decide, rfl⟩

/-- Claim C3, counterexample: registering channel `1` and then channel `2`
for client `A` from the empty state leaves the prior channel unclosed — the
source's `connect` never calls `close()` on the replaced websocket, so the
set of closed channels stays empty. -/
theorem c3_counterexample :
    ¬ (∀ (w : World) (ws1 ws2 : Nat) (cid : String),
        dictCountKey ((w.register ws1 cid).register ws2 cid).manager.active_connections cid = 1 ∧
        ws1 ∈ ((w.register ws1 cid).register ws2 cid).closed_channels) := by
  intro h
  exact absurd (h ⟨⟨[], []⟩, []⟩ 1 2 "A").2 (by decide)

/-- Claim C3, amended: calling `register` twice for the same client leaves
exactly one active channel for that identifier — the second one — but the
first channel is silently dropped from the registry, never closed, and the
client's session data is reset to a fresh empty session. -/
theorem c3_reregister_single_channel (w : World) (ws1 ws2 : Nat) (cid : String)
    (h : dictCountKey w.manager.active_connections cid ≤ 1) :
    dictCountKey ((w.register ws1 cid).register ws2 cid).manager.active_connections cid = 1 ∧
    dictGet? ((w.register ws1 cid).register ws2 cid).manager.active_connections cid = some ws2 ∧
    ((w.register ws1 cid).register ws2 cid).closed_channels = w.closed_channels ∧
    dictGet? ((w.register ws1 cid).register ws2 cid).manager.client_sessions cid = some ⟨"", []⟩ := by
  refine ⟨?_, ?_, rfl, ?_⟩
  · show dictCountKey (dictSet (dictSet w.manager.active_connections cid ws1) cid ws2) cid = 1
    rw [dictCountKey_dictSet_self, dictCountKey_dictSet_self, max_assoc, max_self]
    exact max_eq_right h
  · exact dictGet?_dictSet_self _ _ _
  · exact dictGet?_dictSet_self _ _ _

/-- Witness for `c3_reregister_single_channel` at the empty world, channels
`1` then `2`, client `A`. -/
theorem c3_reregister_single_channel_witness :
    dictCountKey (((⟨⟨[], []⟩, []⟩ : World).register 1 "A").register 2 "A").manager.active_connections "A" = 1 ∧
    dictGet? (((⟨⟨[], []⟩, []⟩ : World).register 1 "A").register 2 "A").manager.active_connections "A" = some 2 ∧
    (((⟨⟨[], []⟩, []⟩ : World).register 1 "A").register 2 "A").closed_channels =
      (⟨⟨[], []⟩, []⟩ : World).closed_channels ∧
    dictGet? (((⟨⟨[], []⟩, []⟩ : World).register 1 "A").register 2 "A").manager.client_sessions "A" =
      some ⟨"", []⟩ :=
  c3_reregister_single_channel ⟨⟨[], []⟩, []⟩ 1 2 "A" (by decide)

/-- Claim C4, counterexample: when the vision backend is uninitialized,
`ask_question` for a client with no stored scene description fails with
`BackendUnavailable` (503), not `NoContext` — the availability check at
`server.py` line 231 runs before the context check at line 239. -/
theorem c4_counterexample :
    ¬ (∀ (env : Env) (sessions : SessionMap) (request : QuestionRequest),
        sceneContextOf sessions request.client_id = "" →
        (ask_question env sessions request).result = .error .NoContext ∧
        (ask_question env sessions request).qa_called = false) := by
  intro h
  exact absurd (h ⟨false, none, none, 0⟩ [] ⟨"q", "A"⟩ rfl).1 (by decide)

/-- Claim C4, amended: provided the vision backend is initialized,
`ask_question` for a client with no stored scene description (no session
entry, or an empty stored description) always fails with `NoContext`
(HTTP 400), never invokes the Q&A collaborator, and leaves the session store
unchanged. -/
theorem c4_no_context_rejection (env : Env) (sessions : SessionMap)
    (request : QuestionRequest) (hv : env.vision_chat_initialized = true)
    (hctx : sceneContextOf sessions request.client_id = "") :
    (ask_question env sessions request).result = .error .NoContext ∧
    (ask_question env sessions request).qa_called = false ∧
    (ask_question env sessions request).sessions = sessions ∧
    ApiError.status .NoContext = 400 := by
  unfold ask_question
  simp [hv, hctx, ApiError.status]

/-- Witness for `c4_no_context_rejection`: backend initialized, empty session
store, client `A`. -/
theorem c4_no_context_rejection_witness :
    (ask_question ⟨true, none, none, 0⟩ [] ⟨"q", "A"⟩).result = .error .NoContext ∧
    (ask_question ⟨true, none, none, 0⟩ [] ⟨"q", "A"⟩).qa_called = false ∧
    (ask_question ⟨true, none, none, 0⟩ [] ⟨"q", "A"⟩).sessions = [] ∧
    ApiError.status .NoContext = 400 :=
  c4_no_context_rejection ⟨true, none, none, 0⟩ [] ⟨"q", "A"⟩ rfl rfl

/-- Claim C5, counterexample: the string `aGVsbG8=` is valid base64 but its
decoded bytes (`hello`) are no supported image encoding; `analyze_scene`
nevertheless succeeds (the handler never decodes the image, it only
base64-decodes), invokes the collaborator, and overwrites the stored
description — the claim fails in both conjuncts. -/
theorem c5_counterexample :
    ¬ (∀ (env : Env) (sessions : SessionMap) (request : SceneAnalysisRequest),
        decodesAsSupportedImage request.image_data = false →
        (analyze_scene env sessions request).result = .error .InvalidInput ∧
        getSceneDescription (analyze_scene env sessions request).sessions request.client_id =
          getSceneDescription sessions request.client_id) := by
  intro h
  have := h ⟨true, some "desc", none, 0⟩ [("A", ⟨"old", []⟩)] ⟨"aGVsbG8=", "A"⟩ (by decide)
  exact absurd this.1 (by decide)

/-- Claim C5, amended: with the backend initialized, `analyze_scene` fails
with `InvalidInput` (HTTP 400) exactly when the payload is not valid base64;
in that case the session store is untouched and the collaborator is never
invoked. No image-format validation exists: a payload that is valid base64
but not a decodable image is passed to the collaborator. -/
theorem c5_invalid_base64_rejection (env : Env) (sessions : SessionMap)
    (request : SceneAnalysisRequest) (hv : env.vision_chat_initialized = true) :
    ((analyze_scene env sessions request).result = .error .InvalidInput ↔
      b64decode (payloadOf request.image_data) = none) ∧
    (b64decode (payloadOf request.image_data) = none →
      (analyze_scene env sessions request).sessions = sessions ∧
      (analyze_scene env sessions request).vision_called = false) ∧
    ApiError.status .InvalidInput = 400 := by
  unfold analyze_scene
  cases hb : b64decode (payloadOf request.image_data) with
  | none => simp [hv, hb, ApiError.status]
  | some bs =>
    cases hr : env.visionResponse with
    | none => simp [hv, hb, hr, ApiError.status]
    | some resp => simp [hv, hb, hr, ApiError.status]

/-- Witness for `c5_invalid_base64_rejection`: the spec's own example input
`not-an-image` is rejected as invalid base64 and alters nothing. -/
theorem c5_invalid_base64_rejection_witness :
    ((analyze_scene ⟨true, some "x", none, 0⟩ [("clientX", ⟨"old", []⟩)]
        ⟨"not-an-image", "clientX"⟩).result = .error .InvalidInput ↔
      b64decode (payloadOf "not-an-image") = none) ∧
    (b64decode (payloadOf "not-an-image") = none →
      (analyze_scene ⟨true, some "x", none, 0⟩ [("clientX", ⟨"old", []⟩)]
          ⟨"not-an-image", "clientX"⟩).sessions = [("clientX", ⟨"old", []⟩)] ∧
      (analyze_scene ⟨true, some "x", none, 0⟩ [("clientX", ⟨"old", []⟩)]
          ⟨"not-an-image", "clientX"⟩).vision_called = false) ∧
    ApiError.status .InvalidInput = 400 :=
  c5_invalid_base64_rejection ⟨true, some "x", none, 0⟩ [("clientX", ⟨"old", []⟩)]
    ⟨"not-an-image", "clientX"⟩ rfl

/-- Claim C6: a push to a client whose channel is absent, or whose channel
write fails, is swallowed (`send_message` is total and returns normally) and
the resulting state is exactly that of `disconnect(client_id)`: afterwards
the identifier is registered in neither the connection map nor the session
map. The hypothesis `hkeys` is the reachable-state invariant that the two
dictionaries track the same identifiers (they are only ever mutated together
by `connect` and `disconnect`). -/
theorem c6_push_failure_unregisters (m : ConnectionManager) (sendOk : Nat → Bool)
    (cid : String)
    (hkeys : dictContains m.client_sessions cid = dictContains m.active_connections cid)
    (hfail : dictGet? m.active_connections cid = none ∨
      ∃ ws, dictGet? m.active_connections cid = some ws ∧ sendOk ws = false) :
    m.send_message sendOk cid = m.disconnect cid ∧
    dictContains (m.send_message sendOk cid).active_connections cid = false ∧
    dictContains (m.send_message sendOk cid).client_sessions cid = false := by
  have hsend : m.send_message sendOk cid = m.disconnect cid := by
    rcases hfail with habs | ⟨ws, hws, hko⟩
    · have hs : dictGet? m.client_sessions cid = none := by
        apply dictGet?_eq_none_of_contains_false
        rw [hkeys, dictContains, habs]
        rfl
      unfold ConnectionManager.send_message
      rw [habs]
      unfold ConnectionManager.disconnect
      rw [dictDel_eq_of_none _ _ habs, dictDel_eq_of_none _ _ hs]
    · unfold ConnectionManager.send_message
      rw [hws]
      simp [hko]
  refine ⟨hsend, ?_, ?_⟩ <;>
    rw [hsend] <;>
    simp [ConnectionManager.disconnect, dictContains, dictGet?_dictDel_self]

/-- Witness for `c6_push_failure_unregisters`: one registered client whose
channel write fails; afterwards the client is fully unregistered. -/
theorem c6_push_failure_unregisters_witness :
    (⟨[("A", 5)], [("A", ⟨"", []⟩)]⟩ : ConnectionManager).send_message
        (fun _ => false) "A" =
      (⟨[("A", 5)], [("A", ⟨"", []⟩)]⟩ : ConnectionManager).disconnect "A" ∧
    dictContains ((⟨[("A", 5)], [("A", ⟨"", []⟩)]⟩ : ConnectionManager).send_message
        (fun _ => false) "A").active_connections "A" = false ∧
    dictContains ((⟨[("A", 5)], [("A", ⟨"", []⟩)]⟩ : ConnectionManager).send_message
        (fun _ => false) "A").client_sessions "A" = false :=
  c6_push_failure_unregisters ⟨[("A", 5)], [("A", ⟨"", []⟩)]⟩ (fun _ => false) "A"
    rfl (Or.inr ⟨5, rfl, rfl⟩)

/-- Claim C7: `disconnect` is idempotent — applying it twice equals applying
it once — and on an identifier registered in neither dictionary it is the
identity, so a second or unknown-identifier call produces no error (the
function is total) and no observable state change. -/
theorem c7_unregister_idempotent (m : ConnectionManager) (cid : String) :
    (m.disconnect cid).disconnect cid = m.disconnect cid ∧
    (dictContains m.active_connections cid = false →
      dictContains m.client_sessions cid = false →
      m.disconnect cid = m) := by
  constructor
  · unfold ConnectionManager.disconnect
    simp [dictDel_dictDel]
  · intro ha hs
    unfold ConnectionManager.disconnect
    rw [dictDel_eq_of_none _ _ (dictGet?_eq_none_of_contains_false _ _ ha),
      dictDel_eq_of_none _ _ (dictGet?_eq_none_of_contains_false _ _ hs)]

/-- Witness for `c7_unregister_idempotent`: a manager holding only client
`B`; disconnecting the unknown client `A` twice is the identity both times. -/
theorem c7_unregister_idempotent_witness :
    ((⟨[("B", 9)], [("B", ⟨"x", []⟩)]⟩ : ConnectionManager).disconnect "A").disconnect "A" =
      (⟨[("B", 9)], [("B", ⟨"x", []⟩)]⟩ : ConnectionManager).disconnect "A" ∧
    (⟨[("B", 9)], [("B", ⟨"x", []⟩)]⟩ : ConnectionManager).disconnect "A" =
      ⟨[("B", 9)], [("B", ⟨"x", []⟩)]⟩ :=
  ⟨(c7_unregister_idempotent ⟨[("B", 9)], [("B", ⟨"x", []⟩)]⟩ "A").1,
    (c7_unregister_idempotent ⟨[("B", 9)], [("B", ⟨"x", []⟩)]⟩ "A").2
      (by decide) (by decide)⟩

/-- Claim C8: for a client whose session holds a non-empty scene description,
a successful `ask_question` (backend up, collaborator answers) returns the
stripped answer together with the stored scene description as
`scene_context`, and appends exactly one history entry carrying the question,
the answer, that scene context, and the timestamp, leaving every other
client's entry untouched. -/
theorem c8_answer_appends_history (env : Env) (sessions : SessionMap)
    (request : QuestionRequest) (sess : Session) (resp : String)
    (hv : env.vision_chat_initialized = true)
    (hs : dictGet? sessions request.client_id = some sess)
    (hne : sess.last_scene_description ≠ "")
    (hr : env.qaResponse = some resp) :
    (ask_question env sessions request).result =
      .ok ⟨pystrip resp, sess.last_scene_description, env.now⟩ ∧
    dictGet? (ask_question env sessions request).sessions request.client_id =
      some { sess with conversation_history := sess.conversation_history ++
        [⟨request.question, pystrip resp, sess.last_scene_description, env.now⟩] } ∧
    (∀ cid₂, cid₂ ≠ request.client_id →
      dictGet? (ask_question env sessions request).sessions cid₂ =
        dictGet? sessions cid₂) := by
  have hctx : sceneContextOf sessions request.client_id = sess.last_scene_description := by
    unfold sceneContextOf
    rw [hs]
  have hcontains : dictContains sessions request.client_id = true := by
    rw [dictContains, hs]
    rfl
  have hask : ask_question env sessions request =
      ⟨.ok ⟨pystrip resp, sess.last_scene_description, env.now⟩,
        appendHistory sessions request.client_id
          ⟨request.question, pystrip resp, sess.last_scene_description, env.now⟩,
        true⟩ := by
    unfold ask_question
    rw [hv]
    simp only [if_true, hctx, if_neg hne, hr]
  refine ⟨by rw [hask], ?_, ?_⟩
  · rw [hask]
    show dictGet? (appendHistory sessions request.client_id _) request.client_id = _
    unfold appendHistory
    rw [if_pos hcontains, dictGet?_dictModify_self, hs]
    rfl
  · intro cid₂ hne₂
    rw [hask]
    show dictGet? (appendHistory sessions request.client_id _) cid₂ = _
    unfold appendHistory
    rw [if_pos hcontains, dictGet?_dictModify_other _ _ _ _ hne₂]

/-- Witness for `c8_answer_appends_history`: the spec's end-to-end example —
stored description `a red chair`, question `what color?`, stub answer
`blue` — returns `scene_context = "a red chair"` and appends one entry. -/
theorem c8_answer_appends_history_witness :
    (ask_question ⟨true, none, some "blue", 9⟩ [("client1", ⟨"a red chair", []⟩)]
        ⟨"what color?", "client1"⟩).result =
      .ok ⟨pystrip "blue", "a red chair", 9⟩ ∧
    dictGet? (ask_question ⟨true, none, some "blue", 9⟩
        [("client1", ⟨"a red chair", []⟩)] ⟨"what color?", "client1"⟩).sessions
        "client1" =
      some ⟨"a red chair", [⟨"what color?", pystrip "blue", "a red chair", 9⟩]⟩ ∧
    (∀ cid₂, cid₂ ≠ "client1" →
      dictGet? (ask_question ⟨true, none, some "blue", 9⟩
          [("client1", ⟨"a red chair", []⟩)] ⟨"what color?", "client1"⟩).sessions cid₂ =
        dictGet? [("client1", ⟨"a red chair", []⟩)] cid₂) :=
  c8_answer_appends_history ⟨true, none, some "blue", 9⟩
    [("client1", ⟨"a red chair", []⟩)] ⟨"what color?", "client1"⟩
    ⟨"a red chair", []⟩ "blue" rfl (by decide) (by decide) rfl

/-- Claim C9, counterexample: a stub collaborator returning `a red chair`
followed by a newline yields a description with the whitespace stripped
(`server.py` line 168 applies `.strip()`), so the returned description is
not the text the collaborator produced. -/
theorem c9_counterexample :
    ¬ (∀ (env : Env) (sessions : SessionMap) (request : SceneAnalysisRequest)
        (resp : String),
        env.vision_chat_initialized = true →
        decodesAsSupportedImage request.image_data = true →
        env.visionResponse = some resp →
        (analyze_scene env sessions request).result =
          .ok ⟨resp, env.now, placeholder_confidence⟩) := by
  intro h
  have := h ⟨true, some "a red chair\n", none, 3⟩ [] ⟨"/9j/4A==", "A"⟩
    "a red chair\n" rfl (by decide) rfl
  rw [show analyze_scene ⟨true, some "a red chair\n", none, 3⟩ []
      ⟨"/9j/4A==", "A"⟩ =
      ⟨.ok ⟨pystrip "a red chair\n", 3, placeholder_confidence⟩,
        commitScene [] "A" (pystrip "a red chair\n"), true⟩ from rfl] at this
  simp only [Except.ok.injEq, SceneAnalysisResponse.mk.injEq] at this
  exact absurd this.1 (by decide)

/-- Claim C9, amended: for every valid image input, a successful
`analyze_scene` returns a description equal to the collaborator's text with
leading and trailing whitespace stripped (equal to the text itself whenever
the collaborator's output carries no surrounding whitespace, as in the
spec's `a red chair` example), with confidence exactly the placeholder
`0.85 = 85/100`, and commits that stripped description through the guarded
context-store write. -/
theorem c9_description_and_confidence (env : Env) (sessions : SessionMap)
    (request : SceneAnalysisRequest) (resp : String)
    (hv : env.vision_chat_initialized = true)
    (himg : decodesAsSupportedImage request.image_data = true)
    (hr : env.visionResponse = some resp) :
    (analyze_scene env sessions request).result =
      .ok ⟨pystrip resp, env.now, placeholder_confidence⟩ ∧
    placeholder_confidence = 85 / 100 ∧
    (analyze_scene env sessions request).sessions =
      commitScene sessions request.client_id (pystrip resp) := by
  have hb : ∃ bs, b64decode (payloadOf request.image_data) = some bs := by
    unfold decodesAsSupportedImage at himg
    cases hx : b64decode (payloadOf request.image_data) with
    | none => rw [hx] at himg; simp at himg
    | some bs => exact ⟨bs, rfl⟩
  obtain ⟨bs, hb⟩ := hb
  unfold analyze_scene
  rw [hv]
  simp only [if_true, hb, hr]
  exact ⟨trivial, rfl, trivial⟩

/-- Witness for `c9_description_and_confidence`: a minimal JPEG payload and a
stub returning exactly `a red chair` reproduce the spec's example:
description `a red chair`, confidence `0.85`, and the description committed
for `client1`. -/
theorem c9_description_and_confidence_witness :
    (analyze_scene ⟨true, some "a red chair", none, 3⟩
        [("client1", ⟨"", []⟩)] ⟨"/9j/4A==", "client1"⟩).result =
      .ok ⟨pystrip "a red chair", 3, placeholder_confidence⟩ ∧
    placeholder_confidence = 85 / 100 ∧
    (analyze_scene ⟨true, some "a red chair", none, 3⟩
        [("client1", ⟨"", []⟩)] ⟨"/9j/4A==", "client1"⟩).sessions =
      commitScene [("client1", ⟨"", []⟩)] "client1" (pystrip "a red chair") :=
  c9_description_and_confidence ⟨true, some "a red chair", none, 3⟩
    [("client1", ⟨"", []⟩)] ⟨"/9j/4A==", "client1"⟩ "a red chair"
    rfl (by decide) rfl

/-- Claim C10: when the vision backend is uninitialized, `ask_question`
fails with `BackendUnavailable` (HTTP 503) regardless of the session store —
the availability check precedes the `NoContext` precondition check — the Q&A
collaborator is never invoked and the store is unchanged. -/
theorem c10_backend_check_precedence (env : Env) (sessions : SessionMap)
    (request : QuestionRequest) (hv : env.vision_chat_initialized = false) :
    (ask_question env sessions request).result = .error .BackendUnavailable ∧
    ApiError.status .BackendUnavailable = 503 ∧
    (ask_question env sessions request).qa_called = false ∧
    (ask_question env sessions request).sessions = sessions := by
  unfold ask_question
  simp [hv, ApiError.status]

/-- Witness for `c10_backend_check_precedence`: the client has a stored
scene description, yet the uninitialized backend yields 503, not 400. -/
theorem c10_backend_check_precedence_witness :
    (ask_question ⟨false, none, some "x", 0⟩ [("client1", ⟨"a red chair", []⟩)]
        ⟨"q", "client1"⟩).result = .error .BackendUnavailable ∧
    ApiError.status .BackendUnavailable = 503 ∧
    (ask_question ⟨false, none, some "x", 0⟩ [("client1", ⟨"a red chair", []⟩)]
        ⟨"q", "client1"⟩).qa_called = false ∧
    (ask_question ⟨false, none, some "x", 0⟩ [("client1", ⟨"a red chair", []⟩)]
        ⟨"q", "client1"⟩).sessions = [("client1", ⟨"a red chair", []⟩)] :=
  c10_backend_check_precedence ⟨false, none, some "x", 0⟩
    [("client1", ⟨"a red chair", []⟩)] ⟨"q", "client1"⟩ rfl

end Bujji
